import Mathlib

/-!
Verification development for the Wisdom-Graph frontend map engine
(`src/frontend/src/pages/MapViewer.js`, `src/frontend/src/pages/Dashboard.js`).

The JavaScript functions `getLayoutedElements`, `processMapData`,
`handleExpandNode`, `loadMap`, `handleExport` and `handleGenerateMap` are
embedded as pure Lean functions.  Asynchronous provider calls (axios) are
modelled by passing the response as an explicit `Option`-valued argument
(`none` = the HTTP call threw and the `catch` branch ran).  `Date.now()`
and `new Date().toISOString()` are modelled as explicit arguments, since
they are inputs the handlers read from the environment.
-/

set_option autoImplicit false

/-- A 2-D position `{x, y}` as stored on a ReactFlow node. -/
structure Pos where
  x : Int
  y : Int
deriving Repr, DecidableEq

/-- The `data` payload of a ReactFlow node as built by `MapViewer.js`:
`{label, description, resources}`. -/
structure NodeData where
  label : String
  description : String
  resources : List String
deriving Repr, DecidableEq

/-- A ReactFlow node as built by `processMapData` / `handleExpandNode`:
`{id, type, data, position}`. -/
structure FlowNode where
  id : String
  type : String
  data : NodeData
  position : Pos
deriving Repr, DecidableEq

/-- The inline edge style object `{stroke, strokeWidth}`. -/
structure EdgeStyle where
  stroke : String
  strokeWidth : Nat
deriving Repr, DecidableEq

/-- A ReactFlow edge as built by `processMapData` / `handleExpandNode`:
`{id, source, target, type, animated, style}`. -/
structure FlowEdge where
  id : String
  source : String
  target : String
  type : String
  animated : Bool
  style : EdgeStyle
deriving Repr, DecidableEq

/-- The graph state held by the `MapViewer` component: the `nodes` and
`edges` React state variables.  Presentation-only state (selection,
loading flags, toasts) is not part of the graph. -/
structure MapState where
  nodes : List FlowNode
  edges : List FlowEdge
deriving Repr, DecidableEq

/-- The dagre graph assembled inside `getLayoutedElements`: registered
node ids (each set with a fixed 250×100 box), directed edges, and the
`rankdir` option. -/
structure DagreGraph where
  rankdir : String
  nodeIds : List String
  edges : List (String × String)
deriving Repr, DecidableEq

/-- Ids of the sources of the edges entering `v`. -/
def dagreInEdges (g : DagreGraph) (v : String) : List String :=
  (g.edges.filter (fun e => e.2 == v)).map Prod.fst

/-- Longest-path rank of a node, fuel-bounded so that it terminates
deterministically on cyclic edge sets (back edges beyond the fuel bound
are ignored).  A node with no incoming edges has rank 0. -/
def dagreRank (g : DagreGraph) : Nat → String → Nat
  | 0, _ => 0
  | fuel + 1, v => (dagreInEdges g v).foldl (fun acc u => max acc (dagreRank g fuel u + 1)) 0

/-- Index of a string in a list (length of the list when absent). -/
def idxOfStr (v : String) : List String → Nat
  | [] => 0
  | u :: rest => if u == v then 0 else idxOfStr v rest + 1

/-- Model of `dagre.layout` followed by `dagreGraph.node(id)`: a
deterministic layered placement.  dagre is an external library; the model
captures its documented behaviour as used by this code — it is a pure
function of the assembled graph that assigns every registered node a
centre position, ranking nodes by longest path from the roots (cycle-safe
via the fuel bound), ordering a rank by node insertion order, and spacing
ranks and columns by the box dimensions plus separation constants.  For
horizontal rank directions the two coordinates are swapped. -/
def dagreLayoutRun (g : DagreGraph) : String → Pos := fun v =>
  let fuel := g.nodeIds.length + g.edges.length
  let r := dagreRank g fuel v
  let sameRank := g.nodeIds.filter (fun u => dagreRank g fuel u == r)
  let i := idxOfStr v sameRank
  let p : Pos := { x := 125 + 300 * (i : Int), y := 50 + 150 * (r : Int) }
  if g.rankdir == "LR" || g.rankdir == "RL" then { x := p.y, y := p.x } else p

/-- The dagre graph assembled by the `setNode` / `setEdge` loops of
`getLayoutedElements`. -/
def mkDagreGraph (nodes : List FlowNode) (edges : List FlowEdge) (direction : String) : DagreGraph :=
  { rankdir := direction
    nodeIds := nodes.map FlowNode.id
    edges := edges.map (fun edge => (edge.source, edge.target)) }

/-- The position `getLayoutedElements` assigns to node id `v`: the dagre
centre position over the full node/edge set, shifted by half the box
(`x - 125`, `y - 50`). -/
def layoutPos (nodes : List FlowNode) (edges : List FlowEdge) (direction : String) (v : String) : Pos :=
  let nodeWithPosition := dagreLayoutRun (mkDagreGraph nodes edges direction) v
  { x := nodeWithPosition.x - 125, y := nodeWithPosition.y - 50 }

/-- Embedding of `getLayoutedElements(nodes, edges, direction = 'TB')`
(`MapViewer.js` lines 69–96): register every node with a 250×100 box,
register every edge, run dagre, then map over the input nodes replacing
only `position`; the input edge list is returned as-is. -/
def getLayoutedElements (nodes : List FlowNode) (edges : List FlowEdge)
    (direction : String := "TB") : List FlowNode × List FlowEdge :=
  let dagreGraph := mkDagreGraph nodes edges direction
  let positions := dagreLayoutRun dagreGraph
  let layoutedNodes := nodes.map (fun node =>
    let nodeWithPosition := positions node.id
    { node with position := { x := nodeWithPosition.x - 125, y := nodeWithPosition.y - 50 } })
  (layoutedNodes, edges)

/-- A node of the generation payload `response.data.data.nodes`:
`{id, label, description, resources?}` (resources may be absent). -/
structure RawNode where
  id : String
  label : String
  description : String
  resources : Option (List String)
deriving Repr, DecidableEq

/-- An edge of the generation payload: `{from, to}`. -/
structure RawEdge where
  from_ : String
  to_ : String
deriving Repr, DecidableEq

/-- The generation payload `response.data.data`: `{nodes, edges}`. -/
structure GenData where
  nodes : List RawNode
  edges : List RawEdge
deriving Repr, DecidableEq

/-- The `/api/generate-map` response body: `{success, data}`. -/
structure GenerateResponse where
  success : Bool
  data : GenData
deriving Repr, DecidableEq

/-- The edge style literal `{stroke: theme === 'dark' ? '#60a5fa' : '#3b82f6', strokeWidth: 2}`. -/
def edgeStyle (theme : String) : EdgeStyle :=
  { stroke := if theme == "dark" then "#60a5fa" else "#3b82f6", strokeWidth := 2 }

/-- Embedding of `processMapData(mapData)` (`MapViewer.js` lines 133–161):
build ReactFlow nodes (position zeroed) and edges (ids `e{index}-{from}-{to}`)
from the payload, run `getLayoutedElements`, and set the state. -/
def processMapData (mapData : GenData) (theme : String) : MapState :=
  let processedNodes := mapData.nodes.map (fun node =>
    { id := node.id
      type := "custom"
      data := { label := node.label
                description := node.description
                resources := node.resources.getD [] }
      position := { x := 0, y := 0 } : FlowNode })
  let processedEdges := mapData.edges.enum.map (fun (index, edge) =>
    { id := s!"e{index}-{edge.from_}-{edge.to_}"
      source := edge.from_
      target := edge.to_
      type := "smoothstep"
      animated := true
      style := edgeStyle theme : FlowEdge })
  let layouted := getLayoutedElements processedNodes processedEdges
  { nodes := layouted.1, edges := layouted.2 }

/-- Model of the JavaScript `String.prototype.trim`: drop whitespace from
both ends of the character sequence.  (Stated on the character list so
that it evaluates inside the kernel.) -/
def jsTrim (s : String) : String :=
  ⟨((s.data.dropWhile Char.isWhitespace).reverse.dropWhile Char.isWhitespace).reverse⟩

/-- Embedding of the generation flow: `handleGenerateMap` (`Dashboard.js`
lines 25–53) guards a blank topic, posts to the provider, and on a success
response navigates to `MapViewer`, whose `initMap` runs `processMapData`
on the payload.  `none` is returned when no graph is produced (blank
topic, axios error, or `success: false`). -/
def generateMapPipeline (topic : String) (resp : Option GenerateResponse) (theme : String) :
    Option MapState :=
  if jsTrim topic == "" then none
  else
    match resp with
    | none => none
    | some r => if r.success then some (processMapData r.data theme) else none

/-- A subtopic of the `/api/expand-node` response: `{label, description, resources?}`. -/
structure Subtopic where
  label : String
  description : String
  resources : Option (List String)
deriving Repr, DecidableEq

/-- The `/api/expand-node` response body: `{success, subtopics}`. -/
structure ExpandResponse where
  success : Bool
  subtopics : List Subtopic
deriving Repr, DecidableEq

/-- Which code path of `handleExpandNode` ran: the `response.data.success`
branch (success toast), the `catch` branch (error toast), or neither (the
early return when nothing is selected, or a non-success response body). -/
inductive ExpandOutcome where
  | succeeded
  | apiError
  | noop
deriving Repr, DecidableEq

/-- The new nodes built by `handleExpandNode` (lines 210–219): one per
subtopic, id `` `${selectedNode.id}-sub-${Date.now()}-${index}` ``,
position zeroed pending re-layout. -/
def mkNewNodes (sel : FlowNode) (now : Nat) (subtopics : List Subtopic) : List FlowNode :=
  subtopics.enum.map (fun (index, subtopic) =>
    { id := s!"{sel.id}-sub-{now}-{index}"
      type := "custom"
      data := { label := subtopic.label
                description := subtopic.description
                resources := subtopic.resources.getD [] }
      position := { x := 0, y := 0 } })

/-- The new edges built by `handleExpandNode` (lines 222–229): one per new
node, id `` `e-${selectedNode.id}-${newNode.id}` ``, from the selected
node to the new node. -/
def mkNewEdges (sel : FlowNode) (theme : String) (newNodes : List FlowNode) : List FlowEdge :=
  newNodes.map (fun newNode =>
    { id := s!"e-{sel.id}-{newNode.id}"
      source := sel.id
      target := newNode.id
      type := "smoothstep"
      animated := true
      style := edgeStyle theme })

/-- Embedding of `handleExpandNode` (`MapViewer.js` lines 191–254).
Arguments: current graph state, the `selectedNode` state variable, the
theme, the value of `Date.now()`, and the provider response (`none` =
axios threw).  Returns the graph state after the handler and the code
path taken. -/
def handleExpandNode (st : MapState) (selectedNode : Option FlowNode) (theme : String)
    (now : Nat) (resp : Option ExpandResponse) : MapState × ExpandOutcome :=
  match selectedNode with
  | none => (st, .noop)
  | some sel =>
    match resp with
    | none => (st, .apiError)
    | some r =>
      if r.success then
        let newNodes := mkNewNodes sel now r.subtopics
        let newEdges := mkNewEdges sel theme newNodes
        let updatedNodes := st.nodes ++ newNodes
        let updatedEdges := st.edges ++ newEdges
        let layouted := getLayoutedElements updatedNodes updatedEdges
        ({ nodes := layouted.1, edges := layouted.2 }, .succeeded)
      else (st, .noop)

/-- A persisted map record as returned by `GET /api/maps/{id}`:
`{topic, level, nodes, edges}` where nodes carry their stored positions. -/
structure MapRecord where
  topic : String
  level : String
  nodes : List FlowNode
  edges : List FlowEdge
deriving Repr, DecidableEq

/-- The `GET /api/maps/{id}` response body: `{success, map}`. -/
structure LoadResponse where
  success : Bool
  map : MapRecord
deriving Repr, DecidableEq

/-- Embedding of `loadMap(id)` (`MapViewer.js` lines 163–180): on a
success response the stored `map.nodes` / `map.edges` are set as the
state directly — `getLayoutedElements` is not invoked; on an axios error
or a non-success response the state is left as it was. -/
def loadMap (st : MapState) (resp : Option LoadResponse) : MapState :=
  match resp with
  | none => st
  | some r => if r.success then { nodes := r.map.nodes, edges := r.map.edges } else st

/-- A JSON value, modelling what `JSON.stringify` serializes: object keys
appear in insertion order. -/
inductive Json where
  | str (s : String)
  | num (n : Int)
  | bool (b : Bool)
  | arr (xs : List Json)
  | obj (fields : List (String × Json))

/-- Top-level keys of a JSON object, in order. -/
def Json.keys : Json → List String
  | .obj fields => fields.map Prod.fst
  | _ => []

/-- Lookup of a key in a JSON object field list. -/
def jlookup (k : String) : List (String × Json) → Option Json
  | [] => none
  | (k2, v) :: rest => if k2 == k then some v else jlookup k rest

/-- Field lookup on a JSON value. -/
def Json.get (j : Json) (k : String) : Option Json :=
  match j with
  | .obj fields => jlookup k fields
  | _ => none

/-- JSON encoding of a position object. -/
def encodePos (p : Pos) : Json :=
  .obj [("x", .num p.x), ("y", .num p.y)]

/-- JSON encoding of a node `data` object. -/
def encodeNodeData (d : NodeData) : Json :=
  .obj [("label", .str d.label), ("description", .str d.description),
        ("resources", .arr (d.resources.map .str))]

/-- JSON encoding of a ReactFlow node as `JSON.stringify` emits it. -/
def encodeFlowNode (v : FlowNode) : Json :=
  .obj [("id", .str v.id), ("type", .str v.type),
        ("data", encodeNodeData v.data), ("position", encodePos v.position)]

/-- JSON encoding of a ReactFlow edge as `JSON.stringify` emits it. -/
def encodeFlowEdge (e : FlowEdge) : Json :=
  .obj [("id", .str e.id), ("source", .str e.source), ("target", .str e.target),
        ("type", .str e.type), ("animated", .bool e.animated),
        ("style", .obj [("stroke", .str e.style.stroke),
                        ("strokeWidth", .num (e.style.strokeWidth : Int))])]

/-- Embedding of `handleExport` (`MapViewer.js` lines 281–300): the
`exportData` object `{topic, level, nodes, edges, exported_at}` that is
stringified and downloaded; `isoNow` is `new Date().toISOString()`. -/
def handleExport (topic level : String) (st : MapState) (isoNow : String) : Json :=
  .obj [("topic", .str topic), ("level", .str level),
        ("nodes", .arr (st.nodes.map encodeFlowNode)),
        ("edges", .arr (st.edges.map encodeFlowEdge)),
        ("exported_at", .str isoNow)]

/-- Decoder for a JSON string. -/
def decodeStr : Json → Option String
  | .str s => some s
  | _ => none

/-- Decoder for a JSON number as an integer. -/
def decodeInt : Json → Option Int
  | .num n => some n
  | _ => none

/-- Decoder for a JSON boolean. -/
def decodeBool : Json → Option Bool
  | .bool b => some b
  | _ => none

/-- Decoder for a JSON array of strings. -/
def decodeStrList : Json → Option (List String)
  | .arr xs =>
    xs.foldr (fun x acc =>
      match decodeStr x, acc with
      | some s, some l => some (s :: l)
      | _, _ => none) (some [])
  | _ => none

/-- Decoder for a list of JSON values, all of which must decode. -/
def decodeList {α : Type} (dec : Json → Option α) : Json → Option (List α)
  | .arr xs =>
    xs.foldr (fun x acc =>
      match dec x, acc with
      | some a, some l => some (a :: l)
      | _, _ => none) (some [])
  | _ => none

/-- Decoder for a position object. -/
def decodePos (j : Json) : Option Pos := do
  let x ← decodeInt (← j.get "x")
  let y ← decodeInt (← j.get "y")
  pure { x := x, y := y }

/-- Decoder for a node `data` object. -/
def decodeNodeData (j : Json) : Option NodeData := do
  let label ← decodeStr (← j.get "label")
  let description ← decodeStr (← j.get "description")
  let resources ← decodeStrList (← j.get "resources")
  pure { label := label, description := description, resources := resources }

/-- Decoder for a ReactFlow node. -/
def decodeFlowNode (j : Json) : Option FlowNode := do
  let id ← decodeStr (← j.get "id")
  let ty ← decodeStr (← j.get "type")
  let data ← decodeNodeData (← j.get "data")
  let position ← decodePos (← j.get "position")
  pure { id := id, type := ty, data := data, position := position }

/-- Decoder for a ReactFlow edge. -/
def decodeFlowEdge (j : Json) : Option FlowEdge := do
  let id ← decodeStr (← j.get "id")
  let source ← decodeStr (← j.get "source")
  let target ← decodeStr (← j.get "target")
  let ty ← decodeStr (← j.get "type")
  let animated ← decodeBool (← j.get "animated")
  let style ← j.get "style"
  let stroke ← decodeStr (← style.get "stroke")
  let strokeWidth ← decodeInt (← style.get "strokeWidth")
  pure { id := id, source := source, target := target, type := ty,
         animated := animated, style := { stroke := stroke, strokeWidth := strokeWidth.toNat } }

/-- Decoder for the export record: `(topic, level, nodes, edges, exported_at)`. -/
def decodeExport (j : Json) : Option (String × String × List FlowNode × List FlowEdge × String) := do
  let topic ← decodeStr (← j.get "topic")
  let level ← decodeStr (← j.get "level")
  let nodes ← decodeList decodeFlowNode (← j.get "nodes")
  let edges ← decodeList decodeFlowEdge (← j.get "edges")
  let exportedAt ← decodeStr (← j.get "exported_at")
  pure (topic, level, nodes, edges, exportedAt)

theorem decodeStrList_encode (rs : List String) :
    decodeStrList (.arr (rs.map .str)) = some rs := by
  induction rs with
  | nil => rfl
  | cons r rs ih =>
    simp only [List.map_cons, decodeStrList, List.foldr_cons] at *
    rw [show ((rs.map Json.str).foldr (fun x acc =>
      match decodeStr x, acc with
      | some s, some l => some (s :: l)
      | _, _ => none) (some [])) = some rs from ih]
    rfl

theorem decodeFlowNode_encode (v : FlowNode) :
    decodeFlowNode (encodeFlowNode v) = some v := by
  obtain ⟨id, ty, ⟨label, description, resources⟩, ⟨x, y⟩⟩ := v
  simp [decodeFlowNode, encodeFlowNode, decodeNodeData, encodeNodeData, decodePos, encodePos,
    Json.get, jlookup, decodeStr, decodeInt, decodeStrList_encode, Option.bind]

theorem decodeFlowEdge_encode (e : FlowEdge) :
    decodeFlowEdge (encodeFlowEdge e) = some e := by
  obtain ⟨id, source, target, ty, animated, ⟨stroke, strokeWidth⟩⟩ := e
  simp [decodeFlowEdge, encodeFlowEdge, Json.get, jlookup, decodeStr, decodeInt, decodeBool,
    Option.bind]

theorem decodeList_encode {α : Type} (dec : Json → Option α) (enc : α → Json)
    (h : ∀ a, dec (enc a) = some a) (xs : List α) :
    decodeList dec (.arr (xs.map enc)) = some xs := by
  induction xs with
  | nil => rfl
  | cons x xs ih =>
    simp only [List.map_cons, decodeList, List.foldr_cons] at *
    rw [show ((xs.map enc).foldr (fun x acc =>
      match dec x, acc with
      | some a, some l => some (a :: l)
      | _, _ => none) (some [])) = some xs from ih, h x]

/-- Sample root node used for concrete witnesses and counterexamples. -/
def nodeA : FlowNode :=
  { id := "A", type := "custom"
    data := { label := "Gardening", description := "root topic", resources := [] }
    position := { x := 0, y := 0 } }

/-- Sample second node. -/
def nodeB : FlowNode :=
  { id := "B", type := "custom"
    data := { label := "Soil", description := "soil basics", resources := ["soil.org"] }
    position := { x := 0, y := 0 } }

/-- Sample edge from `nodeA` to `nodeB`. -/
def edgeAB : FlowEdge :=
  { id := "e0-A-B", source := "A", target := "B", type := "smoothstep"
    animated := true, style := edgeStyle "light" }

/-- Sample expand response with one subtopic. -/
def respSoil : ExpandResponse :=
  { success := true
    subtopics := [{ label := "Soil", description := "soil basics", resources := none }] }

/-- Sample expand response with an empty subtopic list. -/
def respEmpty : ExpandResponse := { success := true, subtopics := [] }

/-- A node with only its `position` replaced by the layout computed over
the given full node and edge sets. -/
def repositioned (nodes : List FlowNode) (edges : List FlowEdge) (d : String) (v : FlowNode) :
    FlowNode :=
  { v with position := layoutPos nodes edges d v.id }

/-- The nodes `getLayoutedElements` returns are the input nodes with only
`position` replaced by the dagre placement over the full input. -/
theorem getLayoutedElements_nodes_eq (n : List FlowNode) (e : List FlowEdge) (d : String) :
    (getLayoutedElements n e d).1 = n.map (repositioned n e d) :=
  rfl

/-- The edges `getLayoutedElements` returns are the input edge list. -/
theorem getLayoutedElements_edges_eq (n : List FlowNode) (e : List FlowEdge) (d : String) :
    (getLayoutedElements n e d).2 = e :=
  rfl

/-- C1: for every graph and expansion attempt, if the expand operation
fails (the content provider call errors, or the response body is not a
success), the graph after the call is structurally identical to the graph
before it: the node list and the edge list are unchanged. -/
theorem expand_failure_leaves_graph_unchanged (st : MapState) (sel : Option FlowNode)
    (theme : String) (now : Nat) (resp : Option ExpandResponse)
    (hfail : resp = none ∨ ∃ r, resp = some r ∧ r.success = false) :
    (handleExpandNode st sel theme now resp).1 = st := by
  rcases hfail with h | ⟨r, hr, hs⟩
  · subst h; cases sel <;> rfl
  · subst hr
    cases sel with
    | none => rfl
    | some s => simp [handleExpandNode, hs]

/-- Witness for C1: a failing (errored) expand call on a one-node graph
leaves it unchanged. -/
theorem expand_failure_leaves_graph_unchanged_witness :
    (handleExpandNode { nodes := [nodeA], edges := [] } (some nodeA) "light" 9 none).1
      = { nodes := [nodeA], edges := [] } :=
  expand_failure_leaves_graph_unchanged { nodes := [nodeA], edges := [] } (some nodeA)
    "light" 9 none (Or.inl rfl)

/-- C2 fails on the code: expanding the same node twice while `Date.now()`
returns the same millisecond value (here 100) synthesizes the node id
`A-sub-100-0` twice, so the resulting graph's node ids are not pairwise
distinct even though the code comments claim the ids are unique. -/
theorem expand_duplicate_node_ids :
    ((((handleExpandNode
          ((handleExpandNode { nodes := [nodeA], edges := [] } (some nodeA) "light" 100
            (some respSoil)).1)
          (some nodeA) "light" 100 (some respSoil)).1).nodes.map FlowNode.id)
        = ["A", "A-sub-100-0", "A-sub-100-0"]) ∧
    ¬ ((((handleExpandNode
          ((handleExpandNode { nodes := [nodeA], edges := [] } (some nodeA) "light" 100
            (some respSoil)).1)
          (some nodeA) "light" 100 (some respSoil)).1).nodes.map FlowNode.id).Nodup) := by
  decide

/-- C3: the layout is deterministic — two invocations on the same node
set, edge set and direction return identical results, positions included. -/
theorem layout_deterministic (n1 n2 : List FlowNode) (e1 e2 : List FlowEdge) (d1 d2 : String)
    (hn : n1 = n2) (he : e1 = e2) (hd : d1 = d2) :
    getLayoutedElements n1 e1 d1 = getLayoutedElements n2 e2 d2 := by
  subst hn; subst he; subst hd; rfl

/-- Witness for C3: two invocations on a concrete two-node graph agree. -/
theorem layout_deterministic_witness :
    getLayoutedElements [nodeA, nodeB] [edgeAB] "TB"
      = getLayoutedElements [nodeA, nodeB] [edgeAB] "TB" :=
  layout_deterministic [nodeA, nodeB] [nodeA, nodeB] [edgeAB] [edgeAB] "TB" "TB" rfl rfl rfl

/-- C4: a successful expansion re-runs the layout over the complete merged
graph (all pre-existing nodes and edges together with the new ones), and
every node of the merged graph — the pre-existing ones included — receives
the position computed by that full layout. -/
theorem expand_success_full_relayout (st : MapState) (sel : FlowNode) (theme : String)
    (now : Nat) (r : ExpandResponse) (hs : r.success = true) :
    ((handleExpandNode st (some sel) theme now (some r)).1).nodes
      = (st.nodes ++ mkNewNodes sel now r.subtopics).map
          (repositioned (st.nodes ++ mkNewNodes sel now r.subtopics)
            (st.edges ++ mkNewEdges sel theme (mkNewNodes sel now r.subtopics)) "TB") ∧
    ((handleExpandNode st (some sel) theme now (some r)).1).edges
      = st.edges ++ mkNewEdges sel theme (mkNewNodes sel now r.subtopics) := by
  have h1 : handleExpandNode st (some sel) theme now (some r)
      = ({ nodes := (getLayoutedElements (st.nodes ++ mkNewNodes sel now r.subtopics)
              (st.edges ++ mkNewEdges sel theme (mkNewNodes sel now r.subtopics))).1,
           edges := (getLayoutedElements (st.nodes ++ mkNewNodes sel now r.subtopics)
              (st.edges ++ mkNewEdges sel theme (mkNewNodes sel now r.subtopics))).2 },
         ExpandOutcome.succeeded) := by
    simp only [handleExpandNode, hs, if_true]
  rw [h1]
  exact ⟨getLayoutedElements_nodes_eq _ _ _, rfl⟩

/-- Witness for C4: a concrete successful expansion of `nodeA`. -/
theorem expand_success_full_relayout_witness :
    ((handleExpandNode { nodes := [nodeA], edges := [] } (some nodeA) "light" 7
        (some respSoil)).1).nodes
      = ([nodeA] ++ mkNewNodes nodeA 7 respSoil.subtopics).map
          (repositioned ([nodeA] ++ mkNewNodes nodeA 7 respSoil.subtopics)
            ([] ++ mkNewEdges nodeA "light" (mkNewNodes nodeA 7 respSoil.subtopics)) "TB") ∧
    ((handleExpandNode { nodes := [nodeA], edges := [] } (some nodeA) "light" 7
        (some respSoil)).1).edges
      = [] ++ mkNewEdges nodeA "light" (mkNewNodes nodeA 7 respSoil.subtopics) :=
  expand_success_full_relayout { nodes := [nodeA], edges := [] } nodeA "light" 7 respSoil rfl

/-- C5 fails on the code: a success response with zero nodes still
produces a graph (the empty one), and a success response whose edge
references ids absent from the node list still produces a graph
containing that dangling edge — generation performs neither validation. -/
theorem generate_invalid_payload_produces_graph :
    generateMapPipeline "Gardening"
        (some { success := true, data := { nodes := [], edges := [] } }) "light"
      = some { nodes := [], edges := [] } ∧
    (generateMapPipeline "Gardening"
        (some { success := true
                data := { nodes := [{ id := "n1", label := "L", description := "", resources := none }]
                          edges := [{ from_ := "x", to_ := "y" }] } }) "light").map
        (fun st => (st.nodes.map FlowNode.id, st.edges.map (fun e => (e.source, e.target))))
      = some (["n1"], [("x", "y")]) := by
  decide

/-- C5 amended: generation produces no graph exactly in the cases the code
guards — a blank topic, an errored provider call, or a non-success
response body; a success payload with zero nodes or with an edge whose
endpoints are unknown is accepted unvalidated and yields a graph. -/
theorem generate_provider_failure_no_graph (topic theme : String)
    (resp : Option GenerateResponse)
    (hfail : resp = none ∨ ∃ r, resp = some r ∧ r.success = false) :
    generateMapPipeline topic resp theme = none := by
  rcases hfail with h | ⟨r, hr, hs⟩
  · subst h; unfold generateMapPipeline; split <;> rfl
  · subst hr; unfold generateMapPipeline; simp [hs]

/-- Witness for C5's amended theorem: an errored provider call produces
no graph. -/
theorem generate_provider_failure_no_graph_witness :
    generateMapPipeline "Gardening" none "light" = none :=
  generate_provider_failure_no_graph "Gardening" "light" none (Or.inl rfl)

/-- C6 fails on the code: an expansion whose provider returns an empty
subtopic list runs the success branch (success toast) with zero new
nodes — it does not fail — while the node id list is unchanged. -/
theorem expand_empty_subtopics_succeeds :
    (handleExpandNode { nodes := [nodeA], edges := [] } (some nodeA) "light" 5
        (some respEmpty)).2 = ExpandOutcome.succeeded ∧
    ((handleExpandNode { nodes := [nodeA], edges := [] } (some nodeA) "light" 5
        (some respEmpty)).1).nodes.map FlowNode.id = ["A"] := by
  decide

/-- C6 amended: an expansion whose provider returns an empty candidate
list succeeds with zero new nodes: the success path runs, the node ids
and node payloads are unchanged (positions are re-laid-out over the same
graph), and the edge list is returned unchanged. -/
theorem expand_empty_subtopics_success_same_sets (st : MapState) (sel : FlowNode)
    (theme : String) (now : Nat) (r : ExpandResponse)
    (hs : r.success = true) (he : r.subtopics = []) :
    (handleExpandNode st (some sel) theme now (some r)).2 = ExpandOutcome.succeeded ∧
    ((handleExpandNode st (some sel) theme now (some r)).1).nodes.map FlowNode.id
      = st.nodes.map FlowNode.id ∧
    ((handleExpandNode st (some sel) theme now (some r)).1).edges = st.edges := by
  refine ⟨?_, ?_, ?_⟩ <;>
    simp [handleExpandNode, hs, he, mkNewNodes, mkNewEdges, getLayoutedElements_nodes_eq,
      getLayoutedElements_edges_eq, repositioned, List.map_map, Function.comp]

/-- Witness for C6's amended theorem: the concrete empty-list expansion. -/
theorem expand_empty_subtopics_success_same_sets_witness :
    (handleExpandNode { nodes := [nodeA], edges := [edgeAB] } (some nodeA) "light" 6
        (some respEmpty)).2 = ExpandOutcome.succeeded ∧
    ((handleExpandNode { nodes := [nodeA], edges := [edgeAB] } (some nodeA) "light" 6
        (some respEmpty)).1).nodes.map FlowNode.id
      = ({ nodes := [nodeA], edges := [edgeAB] } : MapState).nodes.map FlowNode.id ∧
    ((handleExpandNode { nodes := [nodeA], edges := [edgeAB] } (some nodeA) "light" 6
        (some respEmpty)).1).edges = ({ nodes := [nodeA], edges := [edgeAB] } : MapState).edges :=
  expand_empty_subtopics_success_same_sets { nodes := [nodeA], edges := [edgeAB] } nodeA
    "light" 6 respEmpty rfl rfl

/-- C7 fails on the code: the export record's timestamp field is named
`exported_at`, not `exportedAt` — the record's keys are exactly
`topic, level, nodes, edges, exported_at`. -/
theorem export_timestamp_field_is_exported_at :
    "exportedAt" ∉ (handleExport "Gardening" "Beginner" { nodes := [nodeA], edges := [] }
        "2026-10-11T00:00:00.000Z").keys ∧
    (handleExport "Gardening" "Beginner" { nodes := [nodeA], edges := [] }
        "2026-10-11T00:00:00.000Z").keys
      = ["topic", "level", "nodes", "edges", "exported_at"] := by
  decide

/-- C7 amended: export produces a JSON record with exactly the fields
`topic`, `level`, `nodes`, `edges` and the ISO-8601 timestamp field
`exported_at`; nodes are exported in their ReactFlow shape (`id`, `type`,
`data` with label/description/resources, `position` with x and y) and
edges in theirs (`id`, `source`, `target`, `type`, `animated`, `style`),
and the record is lossless for node and edge attributes, positions
included: decoding recovers the graph exactly. -/
theorem export_record_shape_lossless (topic level : String) (st : MapState) (isoNow : String) :
    (handleExport topic level st isoNow).keys = ["topic", "level", "nodes", "edges", "exported_at"] ∧
    decodeExport (handleExport topic level st isoNow)
      = some (topic, level, st.nodes, st.edges, isoNow) := by
  refine ⟨rfl, ?_⟩
  simp [decodeExport, handleExport, Json.get, jlookup, decodeStr,
    decodeList_encode decodeFlowNode encodeFlowNode decodeFlowNode_encode,
    decodeList_encode decodeFlowEdge encodeFlowEdge decodeFlowEdge_encode]

/-- C8: loading a persisted record takes the stored nodes — positions
included — and edges verbatim as the new graph; `getLayoutedElements` is
not applied to them. -/
theorem load_takes_stored_positions (st : MapState) (r : LoadResponse)
    (hs : r.success = true) :
    loadMap st (some r) = { nodes := r.map.nodes, edges := r.map.edges } := by
  simp [loadMap, hs]

/-- Witness for C8: loading a concrete record with a non-origin stored
position keeps that position. -/
theorem load_takes_stored_positions_witness :
    loadMap { nodes := [], edges := [] }
        (some { success := true
                map := { topic := "Gardening", level := "Beginner"
                         nodes := [{ nodeA with position := { x := 42, y := 17 } }]
                         edges := [edgeAB] } })
      = { nodes := [{ nodeA with position := { x := 42, y := 17 } }], edges := [edgeAB] } :=
  load_takes_stored_positions { nodes := [], edges := [] }
    { success := true
      map := { topic := "Gardening", level := "Beginner"
               nodes := [{ nodeA with position := { x := 42, y := 17 } }]
               edges := [edgeAB] } } rfl

/-- Sample selected node whose id is absent from the sample graph. -/
def ghostNode : FlowNode :=
  { id := "G", type := "custom"
    data := { label := "Ghost", description := "", resources := [] }
    position := { x := 0, y := 0 } }

/-- C9 fails on the code: an expand request whose selected node's id is
absent from the graph (a node object with id `G` while the graph holds
only `A`) is not rejected — the handler proceeds, adds a child node and a
dangling edge with source `G`, so the graph changes. -/
theorem expand_unknown_selected_node_changes_graph :
    ((handleExpandNode { nodes := [nodeA], edges := [] } (some ghostNode) "light" 3
        (some respSoil)).1).nodes.map FlowNode.id = ["A", "G-sub-3-0"] ∧
    ((handleExpandNode { nodes := [nodeA], edges := [] } (some ghostNode) "light" 3
        (some respSoil)).1).edges.map (fun e => (e.source, e.target)) = [("G", "G-sub-3-0")] := by
  decide

/-- C9 amended: only the no-selection case is guarded — with no node
selected the handler returns immediately, leaving the graph's node and
edge sets unchanged; the code never checks that a selected node's id
resolves to a node of the graph. -/
theorem expand_no_selection_noop (st : MapState) (theme : String) (now : Nat)
    (resp : Option ExpandResponse) :
    handleExpandNode st none theme now resp = (st, ExpandOutcome.noop) :=
  rfl

/-- C10: the layout returns the input edge list unchanged and exactly one
output node per input node, in order, with every field other than
`position` (id, type, and the data payload with label, description and
resources) identical to the input. -/
theorem layout_frame_only_positions (n : List FlowNode) (e : List FlowEdge) (d : String) :
    (getLayoutedElements n e d).2 = e ∧
    (getLayoutedElements n e d).1.length = n.length ∧
    (getLayoutedElements n e d).1.map (fun v => (v.id, v.type, v.data))
      = n.map (fun v => (v.id, v.type, v.data)) := by
  refine ⟨rfl, ?_, ?_⟩
  · rw [getLayoutedElements_nodes_eq, List.length_map]
  · rw [getLayoutedElements_nodes_eq, List.map_map]
    rfl
